import Mathlib

/-!
# Verification of the simpleproxy SOCKS5 relay (`main.go`)

A shallow embedding of the SOCKS5 proxy in `src/main.go`: bytes are `Nat`s
(kept below 256 where it matters), TCP connections are modelled as an input
byte list (what the peer will deliver before EOF) together with the list of
bytes the server has written so far, and UDP datagrams are byte lists.
Effects that the claims depend on (dial success, the destination's optional
UDP reply, connection closes) are made explicit parameters or outputs.
-/

namespace SimpleProxy

/-! ## Wire constants (main.go lines 13-21) -/

def socks5Version : Nat := 0x05
def noAuth : Nat := 0x00
def connectCmd : Nat := 0x01
def udpAssociate : Nat := 0x03
def ipv4Address : Nat := 0x01
def domainName : Nat := 0x03
def ipv6Address : Nat := 0x04

/-! ## Target addresses

`TargetAddress` is the tagged union the decoder produces.  In the Go code the
decoded address is held as a `string` (`net.IP(...).String()` for IPv4/IPv6,
`string(bytes)` for domains) and re-encoded with `net.ParseIP(...).To4()/.To16()`
resp. `[]byte(s)`; for values produced by this decoder those Go stdlib pairs
are exact mutual inverses on the raw bytes, so the embedding carries the raw
bytes directly. -/

inductive TargetAddress where
  | ipv4 (bytes : List Nat)
  | ipv6 (bytes : List Nat)
  | domain (bytes : List Nat)
deriving DecidableEq, Repr

/-- The ATYP byte the code writes back for a decoded address
(`buildUDPReply` re-uses the inbound `addrType`). -/
def TargetAddress.typeByte : TargetAddress → Nat
  | .ipv4 _ => ipv4Address
  | .ipv6 _ => ipv6Address
  | .domain _ => domainName

/-- Number of address bytes this address occupies on the wire
(domain: 1 length byte + the name). -/
def TargetAddress.wireLen : TargetAddress → Nat
  | .ipv4 _ => 4
  | .ipv6 _ => 16
  | .domain bs => 1 + bs.length

/-- Well-formedness: the byte lists have the length the tag promises
(domains: 1..255 per the length-prefixed wire format) and hold bytes. -/
def TargetAddress.Wf : TargetAddress → Prop
  | .ipv4 bs => bs.length = 4 ∧ ∀ b ∈ bs, b < 256
  | .ipv6 bs => bs.length = 16 ∧ ∀ b ∈ bs, b < 256
  | .domain bs => 1 ≤ bs.length ∧ bs.length ≤ 255 ∧ ∀ b ∈ bs, b < 256

instance : DecidablePred TargetAddress.Wf := by
  intro a
  cases a <;> simp only [TargetAddress.Wf] <;> infer_instance

/-! ## 16-bit big-endian port helpers -/

/-- `binary.BigEndian.PutUint16(b, uint16(v))`: the two bytes written. -/
def putUint16 (v : Nat) : List Nat := [v % 65536 / 256, v % 256]

/-- `binary.BigEndian.Uint16` on two bytes (`b[0]<<8 | b[1]`, exact for bytes). -/
def beU16 (b0 b1 : Nat) : Nat := b0 * 256 + b1

/-! ## UDP envelope decoding (main.go `processUDPPacket`, lines 299-358)

`decodeUDPAddr` embeds the address-type switch and the port/payload
extraction (lines 318-358); `parseUDPPacket` adds the leading size and
RSV/FRAG gates (lines 301-316) in front of it, exactly as the code runs. -/

structure UDPParsed where
  addr : TargetAddress
  port : Nat
  headerLen : Nat
  payload : List Nat
deriving DecidableEq, Repr

/-- Lines 318-358 of `processUDPPacket`: switch on `data[3]`, take the address
bytes, compute `headerLen`, read the big-endian port at `headerLen-2`, and
slice the payload at `headerLen`.  `none` is the code's bare `return` (drop). -/
def decodeUDPAddr (data : List Nat) : Option UDPParsed :=
  let addrType := data.getD 3 0
  if addrType = ipv4Address then
    if data.length < 10 then none
    else
      some ⟨.ipv4 ((data.drop 4).take 4),
            beU16 (data.getD 8 0) (data.getD 9 0), 10, data.drop 10⟩
  else if addrType = domainName then
    if data.length < 5 then none
    else
      let domainLen := data.getD 4 0
      if data.length < 7 + domainLen then none
      else
        some ⟨.domain ((data.drop 5).take domainLen),
              beU16 (data.getD (5 + domainLen) 0) (data.getD (6 + domainLen) 0),
              7 + domainLen, data.drop (7 + domainLen)⟩
  else if addrType = ipv6Address then
    if data.length < 22 then none
    else
      some ⟨.ipv6 ((data.drop 4).take 16),
            beU16 (data.getD 20 0) (data.getD 21 0), 22, data.drop 22⟩
  else none

/-- Lines 301-316 then 318-358 of `processUDPPacket`: drop packets shorter
than 10 bytes, with a nonzero reserved byte, or with a nonzero fragment
byte, then decode the envelope. -/
def parseUDPPacket (data : List Nat) : Option UDPParsed :=
  if data.length < 10 then none
  else if data.getD 0 0 ≠ 0 then none
  else if data.getD 1 0 ≠ 0 then none
  else if data.getD 2 0 ≠ 0 then none
  else decodeUDPAddr data

/-- The address bytes `buildUDPReply` appends after the ATYP byte
(lines 410-422): the raw 4/16 bytes for IPv4/IPv6, and for a domain its
length byte (`byte(len(targetAddr))`, wrapping at 256 like the Go cast)
followed by the name bytes. -/
def TargetAddress.encodeWire : TargetAddress → List Nat
  | .ipv4 bs => bs
  | .domain bs => bs.length % 256 :: bs
  | .ipv6 bs => bs

/-- `buildUDPReply` (lines 406-433): RSV(2)+FRAG(1), the original ATYP, the
re-encoded address, the big-endian port, then the payload. -/
def buildUDPReply (addr : TargetAddress) (port : Nat) (payload : List Nat) : List Nat :=
  [0, 0, 0] ++ [addr.typeByte] ++ addr.encodeWire ++ putUint16 port ++ payload

/-- One datagram the relay sends: destination client plus the bytes.
Client addresses are abstracted to an opaque identifier. -/
structure SentDatagram where
  dest : Nat
  bytes : List Nat
deriving DecidableEq, Repr

/-- `processUDPPacket` (lines 299-404), projected onto the datagrams sent back
to the client.  `forwardOk` stands for resolve+dial+write to the destination
succeeding; `destReply` is `some payload` when the destination's datagram
arrives within the 5-second read deadline and `none` on timeout or read
error (lines 386-392, the bare `return`).  On a reply the code builds
`buildUDPReply` and performs exactly one `WriteToUDP` to `clientAddr`. -/
def processUDPPacket (data : List Nat) (clientAddr : Nat)
    (forwardOk : Bool) (destReply : Option (List Nat)) : List SentDatagram :=
  match parseUDPPacket data with
  | none => []
  | some r =>
    if forwardOk then
      match destReply with
      | none => []
      | some rp => [⟨clientAddr, buildUDPReply r.addr r.port rp⟩]
    else []

/-! ## The control connection

A `ConnState` is the stream the server sees: `input` holds the bytes the
peer will still deliver before closing its write side (EOF afterwards), and
`written` accumulates the bytes the server has written on the connection.
`io.ReadFull` into an `n`-byte buffer succeeds iff `n` bytes are available;
on failure it still consumes whatever was available, and the buffer keeps
its Go zero value for the bytes never filled. -/

structure ConnState where
  input : List Nat
  written : List Nat
deriving DecidableEq, Repr

/-- `io.ReadFull(conn, make([]byte, n))` with the error checked:
`some` of the bytes read iff `n` bytes are available. -/
def readFull (s : ConnState) (n : Nat) : Option (List Nat × ConnState) :=
  if n ≤ s.input.length then some (s.input.take n, ⟨s.input.drop n, s.written⟩)
  else none

/-- `io.ReadFull` with its result discarded (the `handleUDPAssociate`
pattern): consumes up to `n` bytes and ignores any error. -/
def readDiscard (s : ConnState) (n : Nat) : ConnState :=
  ⟨s.input.drop n, s.written⟩

/-- `conn.Write(bs)` (writes modelled as delivered). -/
def writeBytes (s : ConnState) (bs : List Nat) : ConnState :=
  ⟨s.input, s.written ++ bs⟩

/-! ## Negotiator (`handshake`, main.go lines 86-109) -/

/-- `handshake`: read `[version, nMethods]`, fail on a version other than
0x05, read and ignore `nMethods` method bytes, then write the 2-byte reply
`[socks5Version, noAuth]`.  `none` is an error return. -/
def handshake (s : ConnState) : ConnState × Option Unit :=
  match readFull s 2 with
  | none => (s, none)
  | some (buf, s1) =>
    let version := buf.getD 0 0
    let nMethods := buf.getD 1 0
    if version ≠ socks5Version then (s1, none)
    else
      match readFull s1 nMethods with
      | none => (s1, none)
      | some (_, s2) => (writeBytes s2 [socks5Version, noAuth], some ())

/-! ## Request dispatcher (`handleRequest`, `sendReply`, `handleUDPAssociate`,
main.go lines 111-271) -/

/-- The error returns of `handleRequest` (each `return nil, fmt.Errorf(...)`). -/
inductive ReqError where
  | readFail        -- an io.ReadFull error, propagated (truncated input)
  | badVersion      -- unsupported SOCKS version
  | unsupportedCmd  -- unsupported command (after reply 0x07)
  | unsupportedAtyp -- unsupported address type (after reply 0x08)
  | dialFail        -- net.Dial failed (after reply 0x05)
deriving DecidableEq, Repr

/-- A successful `handleRequest`: a CONNECT target connection, or the
dummy connection anchoring a UDP association. -/
inductive ReqResult where
  | connect (addr : TargetAddress) (port : Nat)
  | udpAssoc
deriving DecidableEq, Repr

/-- `sendReply` (lines 197-209): `[VER, REP, RSV=0, ATYP=IPv4, 0.0.0.0, port 0]`. -/
def sendReplyBytes (rep : Nat) : List Nat :=
  [socks5Version, rep, 0x00, 0x01, 0, 0, 0, 0, 0, 0]

/-- `handleUDPAssociate` (lines 230-271): discard the client-supplied
address and port — every `io.ReadFull` here has its error ignored, and an
address type outside {IPv4, domain, IPv6} discards nothing — then write a
success reply carrying the UDP relay socket's real local port
(`uint16(udpAddr.Port)`, big-endian).  It never fails short of the reply
write itself (not modelled: writes are delivered). -/
def handleUDPAssociate (s : ConnState) (addrType : Nat) (relayPort : Nat) :
    ConnState × Except ReqError ReqResult :=
  let s1 :=
    if addrType = ipv4Address then readDiscard s 4
    else if addrType = domainName then
      -- lenBuf keeps its zero value when the read fails
      let domLen := s.input.getD 0 0
      readDiscard (readDiscard s 1) domLen
    else if addrType = ipv6Address then readDiscard s 16
    else s
  let s2 := readDiscard s1 2
  let reply := [socks5Version, 0x00, 0x00, 0x01] ++ [0, 0, 0, 0] ++ putUint16 relayPort
  (writeBytes s2 reply, .ok .udpAssoc)

/-- `handleRequest` (lines 111-195): read the 4-byte header, check the
version, dispatch on the command (CONNECT continues, UDP ASSOCIATE goes to
`handleUDPAssociate`, anything else replies 0x07), decode the target
address (unknown address types reply 0x08), read the port, dial
(`dialOk` stands for `net.Dial` succeeding; failure replies 0x05), and on
success send the zero success reply. -/
def handleRequest (s : ConnState) (dialOk : Bool) (relayPort : Nat) :
    ConnState × Except ReqError ReqResult :=
  match readFull s 4 with
  | none => (s, .error .readFail)
  | some (buf, s1) =>
    let version := buf.getD 0 0
    let cmd := buf.getD 1 0
    let addrType := buf.getD 3 0
    if version ≠ socks5Version then (s1, .error .badVersion)
    else if cmd = udpAssociate then handleUDPAssociate s1 addrType relayPort
    else if cmd ≠ connectCmd then
      (writeBytes s1 (sendReplyBytes 0x07), .error .unsupportedCmd)
    else
      -- CONNECT: parse the target address
      let parsed : Option (TargetAddress × ConnState) :=
        if addrType = ipv4Address then
          match readFull s1 4 with
          | none => none
          | some (a, s2) => some (.ipv4 a, s2)
        else if addrType = domainName then
          match readFull s1 1 with
          | none => none
          | some (lenBuf, s2) =>
            match readFull s2 (lenBuf.getD 0 0) with
            | none => none
            | some (dom, s3) => some (.domain dom, s3)
        else if addrType = ipv6Address then
          match readFull s1 16 with
          | none => none
          | some (a, s2) => some (.ipv6 a, s2)
        else none
      if addrType ≠ ipv4Address ∧ addrType ≠ domainName ∧ addrType ≠ ipv6Address then
        (writeBytes s1 (sendReplyBytes 0x08), .error .unsupportedAtyp)
      else
        match parsed with
        | none => (s1, .error .readFail)
        | some (addr, s2) =>
          match readFull s2 2 with
          | none => (s2, .error .readFail)
          | some (pb, s3) =>
            let port := beU16 (pb.getD 0 0) (pb.getD 1 0)
            if dialOk then
              (writeBytes s3 (sendReplyBytes 0x00), .ok (.connect addr port))
            else
              (writeBytes s3 (sendReplyBytes 0x05), .error .dialFail)

/-- How many bytes the CONNECT path of `handleRequest` reads after the
4-byte header: the address (4 for IPv4, 1 length byte + that many name
bytes for a domain, 16 for IPv6) plus the 2-byte port. -/
def connectTailLen (t : Nat) (rest : List Nat) : Nat :=
  if t = ipv4Address then 4 + 2
  else if t = domainName then 1 + rest.getD 0 0 + 2
  else if t = ipv6Address then 16 + 2
  else 0

/-! ## The UDP association after its reply (`dummyConn` and `relay`,
main.go lines 211-228 and 273-284)

`handleConnection` hands the control connection and the `dummyConn`
wrapping it to `relay`, which runs `io.Copy(dummy, conn)` and
`io.Copy(conn, dummy)` concurrently.  Both directions read the same
control connection (`dummyConn.Read` delegates to it), so the client's
post-reply chunks are split between the two copiers by the race; the split
is a parameter.  `dummyConn.Write` reports 0 bytes written and no error,
so `io.Copy` into it stops with `ErrShortWrite` at the first nonempty
chunk and never forwards a byte anywhere. -/

/-- One `Write` endpoint as `io.Copy` sees it: how many bytes it reports
consumed for a chunk, and which bytes actually reach the control
connection through it. -/
structure WriteEnd where
  reported : List Nat → Nat
  toControl : List Nat → List Nat

/-- `dummyConn.Write` (lines 282-284): reports 0 bytes, delivers nothing. -/
def dummyWriteEnd : WriteEnd := ⟨fun _ => 0, fun _ => []⟩

/-- The real control connection's `Write`: full, delivered. -/
def connWriteEnd : WriteEnd := ⟨fun b => b.length, fun b => b⟩

/-- One run of `io.Copy(dst, src)` over the chunks `src` delivers before
EOF: the bytes that reach the control connection, and whether the copy
loop returned.  Each nonempty chunk is written to `dst`; a short write
(`dst` reports fewer bytes than read) makes the copy return with
`ErrShortWrite`, and the end of the chunk list (the client's close) makes
it return with EOF. -/
def ioCopyRun (dst : WriteEnd) : List (List Nat) → List Nat × Bool
  | [] => ([], true)
  | c :: cs =>
    if c.length = 0 then ioCopyRun dst cs
    else if dst.reported c < c.length then (dst.toControl c, true)
    else
      let r := ioCopyRun dst cs
      (dst.toControl c ++ r.1, r.2)

/-- `relay(conn, dummy)` (lines 211-228) during the association: both
copies run over their share of the client's post-reply chunks; `relay`
returns (`<-done`) once either copy has signalled done.  Returns the bytes
written to the control connection and whether `relay` returned. -/
def relayAfterReply (toDummy toEcho : List (List Nat)) : List Nat × Bool :=
  let d := ioCopyRun dummyWriteEnd toDummy
  let e := ioCopyRun connWriteEnd toEcho
  (d.1 ++ e.1, d.2 || e.2)

/-- The association phase after the UDP ASSOCIATE reply: the bytes `relay`
writes to the control connection, and whether the control connection and
the dummy's underlying connection are closed.  When `relay` returns,
`handleConnection`'s deferred `targetConn.Close()` and `conn.Close()`
(lines 66 and 80) both run, so each close flag is exactly `relay`'s
return flag. -/
def associationAfterReply (toDummy toEcho : List (List Nat)) :
    List Nat × Bool × Bool :=
  let r := relayAfterReply toDummy toEcho
  (r.1, r.2, r.2)

/-! ## Connection cleanup on the CONNECT path (`handleConnection`,
main.go lines 65-84, and `handleRequest` lines 187-194) -/

inductive CloseEvent where
  | control
  | target
deriving DecidableEq, Repr

/-- `handleRequest` after a successful dial (lines 187-194): if writing the
success reply fails the code closes the target connection and returns an
error; otherwise it returns the target connection.  The `Bool` says whether
a connection was returned. -/
def handleRequestCloseEvents (replyWriteOk : Bool) : List CloseEvent × Bool :=
  if replyWriteOk then ([], true) else ([.target], false)

/-- `handleConnection` (lines 65-84) for a CONNECT whose dial succeeded: on
an error from `handleRequest` only the deferred `conn.Close()` runs; on
success `defer targetConn.Close()` is armed, `relay` runs until whichever
direction finishes first (`firstDirection` — the outcome is the same), and
the deferred closes fire in LIFO order. -/
def handleConnectionCloseEvents (replyWriteOk : Bool) (firstDirection : Bool) :
    List CloseEvent :=
  let (evs, returned) := handleRequestCloseEvents replyWriteOk
  if returned then
    let _ := firstDirection
    evs ++ [.target, .control]
  else
    evs ++ [.control]

/-! # Theorems -/

/-- C8: for every method-negotiation request whose version byte is the
supported SOCKS version 0x05 and which supplies its declared number of
method bytes, `handshake` succeeds and writes exactly the 2-byte reply
[0x05, 0x00] — the no-authentication method — regardless of how many or
which methods were offered. -/
theorem handshake_selects_noauth (input w0 : List Nat)
    (hver : input.getD 0 0 = socks5Version)
    (hlen : 2 + input.getD 1 0 ≤ input.length) :
    (handshake ⟨input, w0⟩).1.written = w0 ++ [0x05, 0x00] ∧
    (handshake ⟨input, w0⟩).2 = some () := by
  rcases input with _ | ⟨a, _ | ⟨b, rest⟩⟩
  · simp at hlen
  · simp [List.getD] at hlen
  · have ha : a = socks5Version := by simpa using hver
    have hb : b ≤ rest.length := by
      simp only [List.getD_cons_succ, List.getD_cons_zero, List.length_cons] at hlen
      omega
    subst ha
    simp [handshake, readFull, writeBytes, hb, Nat.succ_le_succ, socks5Version, noAuth]

/-- Witness for `handshake_selects_noauth` at a concrete negotiation
offering two unrecognized methods. -/
theorem handshake_selects_noauth_witness :
    (handshake ⟨[0x05, 2, 0xFF, 0x42], []⟩).1.written = [] ++ [0x05, 0x00] ∧
    (handshake ⟨[0x05, 2, 0xFF, 0x42], []⟩).2 = some () :=
  handshake_selects_noauth [0x05, 2, 0xFF, 0x42] [] (by decide) (by decide)

/-- C3 counterexample: a request with command UDP ASSOCIATE (0x03) and the
undefined address-type byte 0x02 does not get the 0x08 failure reply and
does not fail with an unsupported-address-type error — `handleUDPAssociate`'s
address switch has no default case, so the server writes a success reply
(code 0x00) and reports success. -/
theorem udpassoc_bad_atyp_gets_success :
    (handleRequest ⟨[0x05, 0x03, 0x00, 0x02], []⟩ true 1080).1.written =
      [0x05, 0x00, 0x00, 0x01, 0, 0, 0, 0, 4, 56] ∧
    (handleRequest ⟨[0x05, 0x03, 0x00, 0x02], []⟩ true 1080).2 = .ok .udpAssoc :=
  ⟨rfl, rfl⟩

/-- C3 amended: for every CONNECT request whose address-type byte is not
0x01 (IPv4), 0x03 (domain) or 0x04 (IPv6), the server sends the failure
reply with code 0x08 and the request fails with the unsupported-address-type
error.  (Other commands never reach the address decoder: unsupported
commands get reply 0x07, and UDP ASSOCIATE replies success regardless of
the address-type byte.) -/
theorem connect_bad_atyp_replies_unsupported (rsv t : Nat) (rest : List Nat)
    (dialOk : Bool) (relayPort : Nat)
    (h1 : t ≠ ipv4Address) (h2 : t ≠ domainName) (h3 : t ≠ ipv6Address) :
    (handleRequest ⟨socks5Version :: connectCmd :: rsv :: t :: rest, []⟩
        dialOk relayPort).1.written = sendReplyBytes 0x08 ∧
    (handleRequest ⟨socks5Version :: connectCmd :: rsv :: t :: rest, []⟩
        dialOk relayPort).2 = .error .unsupportedAtyp := by
  have h1' : ¬ t = 1 := h1
  have h2' : ¬ t = 3 := h2
  have h3' : ¬ t = 4 := h3
  simp [handleRequest, readFull, writeBytes, h1', h2', h3',
    socks5Version, connectCmd, udpAssociate, ipv4Address, domainName, ipv6Address,
    Nat.succ_le_succ]

/-- Witness for `connect_bad_atyp_replies_unsupported`: a CONNECT request
with address-type byte 0x02. -/
theorem connect_bad_atyp_replies_unsupported_witness :
    (handleRequest ⟨[0x05, 0x01, 0x00, 0x02], []⟩ true 1080).1.written =
      sendReplyBytes 0x08 ∧
    (handleRequest ⟨[0x05, 0x01, 0x00, 0x02], []⟩ true 1080).2 =
      .error .unsupportedAtyp :=
  connect_bad_atyp_replies_unsupported 0x00 0x02 [] true 1080
    (by decide) (by decide) (by decide)

/-- C6 counterexample: the UDP ASSOCIATE success reply does not carry bind
port zero — with the relay socket listening on port 1080, a well-formed
UDP ASSOCIATE request (address 0.0.0.0, port 0) is answered with bind port
bytes [4, 56] (= 1080), not [0, 0]. -/
theorem udpassoc_reply_port_not_zero :
    (handleRequest ⟨[0x05, 0x03, 0x00, 0x01, 0, 0, 0, 0, 0, 0], []⟩
        true 1080).1.written = [0x05, 0x00, 0x00, 0x01, 0, 0, 0, 0, 4, 56] ∧
    ((handleRequest ⟨[0x05, 0x03, 0x00, 0x01, 0, 0, 0, 0, 0, 0], []⟩
        true 1080).1.written).drop 8 ≠ [0, 0] :=
  ⟨rfl, by decide⟩

/-- C6 amended: every reply written by `sendReply` — CONNECT success and
all failure replies — has the form [version, reply_code, reserved 0,
address type IPv4] followed by the zero IPv4 address and port zero; the
UDP ASSOCIATE success reply has the same form and zero bind address, but
its bind port is the UDP relay socket's real local port (as a 16-bit
big-endian value), not zero. -/
theorem replies_ipv4_zero_bind (rep : Nat) (s : ConnState) (atyp relayPort : Nat) :
    sendReplyBytes rep = [socks5Version, rep, 0x00, 0x01] ++ [0, 0, 0, 0] ++ putUint16 0 ∧
    (handleUDPAssociate s atyp relayPort).1.written =
      s.written ++ ([socks5Version, 0x00, 0x00, 0x01] ++ [0, 0, 0, 0] ++ putUint16 relayPort) := by
  refine ⟨rfl, ?_⟩
  simp only [handleUDPAssociate, readDiscard, writeBytes]
  split_ifs <;> rfl

/-- C4 counterexample: a UDP ASSOCIATE request truncated immediately after
its 4-byte header (no address or port bytes at all) still receives the
success reply — `handleUDPAssociate` discards the address/port reads with
their errors ignored, so the truncation is silently absorbed. -/
theorem truncated_udpassoc_gets_success :
    (handleRequest ⟨[0x05, 0x03, 0x00, 0x01], []⟩ true 1080).1.written =
      [0x05, 0x00, 0x00, 0x01, 0, 0, 0, 0, 4, 56] ∧
    (handleRequest ⟨[0x05, 0x03, 0x00, 0x01], []⟩ true 1080).2 = .ok .udpAssoc :=
  ⟨rfl, rfl⟩

/-- C4 amended: on the CONNECT path, whenever decoding the address and port
requires more bytes than the peer supplies, `handleRequest` fails with the
propagated read failure and writes nothing (no zero-filling, no success
reply); `handleUDPAssociate`, by contrast, ignores the read errors on the
fields it discards and always writes its success reply, so a truncated
UDP ASSOCIATE request does receive one. -/
theorem connect_truncated_fails (rsv t : Nat) (rest : List Nat)
    (dialOk : Bool) (relayPort : Nat)
    (hknown : t = ipv4Address ∨ t = domainName ∨ t = ipv6Address)
    (hshort : rest.length < connectTailLen t rest) :
    ((handleRequest ⟨socks5Version :: connectCmd :: rsv :: t :: rest, []⟩
        dialOk relayPort).2 = .error .readFail ∧
     (handleRequest ⟨socks5Version :: connectCmd :: rsv :: t :: rest, []⟩
        dialOk relayPort).1.written = []) ∧
    ∀ atyp input rp, (handleUDPAssociate ⟨input, []⟩ atyp rp).1.written =
      [socks5Version, 0x00, 0x00, 0x01, 0, 0, 0, 0] ++ putUint16 rp := by
  constructor
  · rcases hknown with ht | ht | ht <;> subst ht
    · -- IPv4: needs 4 address bytes then 2 port bytes
      have hs : rest.length < 6 := by
        simpa [connectTailLen, ipv4Address] using hshort
      by_cases h4 : 4 ≤ rest.length
      · have h2 : ¬ 2 ≤ rest.length - 4 := by omega
        simp [handleRequest, readFull, writeBytes, h4, h2,
          socks5Version, connectCmd, udpAssociate, ipv4Address, Nat.succ_le_succ]
      · simp [handleRequest, readFull, writeBytes, h4,
          socks5Version, connectCmd, udpAssociate, ipv4Address, Nat.succ_le_succ]
    · -- domain: needs the length byte, that many name bytes, then the port
      rcases rest with _ | ⟨n, r2⟩
      · simp [handleRequest, readFull, writeBytes,
          socks5Version, connectCmd, udpAssociate, ipv4Address, domainName,
          Nat.succ_le_succ]
      · have hs : r2.length < n + 2 := by
          have := hshort
          simp [connectTailLen, domainName, ipv4Address] at this
          omega
        by_cases hn : n ≤ r2.length
        · have h2 : ¬ 2 ≤ r2.length - n := by omega
          simp [handleRequest, readFull, writeBytes, hn, h2,
            socks5Version, connectCmd, udpAssociate, ipv4Address, domainName,
            Nat.succ_le_succ]
        · simp [handleRequest, readFull, writeBytes, hn,
            socks5Version, connectCmd, udpAssociate, ipv4Address, domainName,
            Nat.succ_le_succ]
    · -- IPv6: needs 16 address bytes then 2 port bytes
      have hs : rest.length < 18 := by
        simpa [connectTailLen, ipv6Address, ipv4Address, domainName] using hshort
      by_cases h16 : 16 ≤ rest.length
      · have h2 : ¬ 2 ≤ rest.length - 16 := by omega
        simp [handleRequest, readFull, writeBytes, h16, h2,
          socks5Version, connectCmd, udpAssociate, ipv4Address, domainName,
          ipv6Address, Nat.succ_le_succ]
      · simp [handleRequest, readFull, writeBytes, h16,
          socks5Version, connectCmd, udpAssociate, ipv4Address, domainName,
          ipv6Address, Nat.succ_le_succ]
  · intro atyp input rp
    simp only [handleUDPAssociate, readDiscard, writeBytes]
    split_ifs <;> rfl

/-- Witness for `connect_truncated_fails`: a CONNECT request whose IPv4
address is cut off after two bytes. -/
theorem connect_truncated_fails_witness :
    ((handleRequest ⟨[0x05, 0x01, 0x00, 0x01, 127, 0], []⟩ true 1080).2 =
        .error .readFail ∧
     (handleRequest ⟨[0x05, 0x01, 0x00, 0x01, 127, 0], []⟩ true 1080).1.written = []) ∧
    ∀ atyp input rp, (handleUDPAssociate ⟨input, []⟩ atyp rp).1.written =
      [socks5Version, 0x00, 0x00, 0x01, 0, 0, 0, 0] ++ putUint16 rp :=
  connect_truncated_fails 0x00 0x01 [127, 0] true 1080 (by decide) (by decide)

/-! ## Round-trip helper lemmas for the UDP address codec -/

theorem putUint16_of_lt (port : Nat) (h : port < 65536) :
    putUint16 port = [port / 256, port % 256] := by
  simp [putUint16, Nat.mod_eq_of_lt h]

theorem decodeUDPAddr_encode (a : TargetAddress) (port : Nat) (payload : List Nat)
    (hwf : a.Wf) (hport : port < 65536) :
    decodeUDPAddr (buildUDPReply a port payload) =
      some ⟨a, port, 4 + a.wireLen + 2, payload⟩ := by
  have hdata : buildUDPReply a port payload =
      0 :: 0 :: 0 :: a.typeByte :: (a.encodeWire ++ (port / 256 :: port % 256 :: payload)) := by
    simp [buildUDPReply, putUint16_of_lt port hport]
  cases a with
  | ipv4 bs =>
    obtain ⟨hlen, -⟩ := hwf
    rw [hdata]
    simp only [TargetAddress.typeByte, TargetAddress.encodeWire, TargetAddress.wireLen,
      decodeUDPAddr, List.getD_cons_succ, List.getD_cons_zero,
      ipv4Address, domainName, ipv6Address, List.length_cons, List.length_append, hlen]
    norm_num
    refine ⟨by omega, List.take_left' hlen, ?_, ?_⟩
    · have h4 : (bs ++ port / 256 :: port % 256 :: payload)[4]? = some (port / 256) := by
        rw [List.getElem?_append_right (by omega : bs.length ≤ 4), hlen]
        norm_num
      have h5 : (bs ++ port / 256 :: port % 256 :: payload)[5]? = some (port % 256) := by
        rw [List.getElem?_append_right (by omega : bs.length ≤ 5), hlen]
        norm_num
      rw [h4, h5]
      simp only [Option.getD_some, beU16]
      omega
    · rw [List.drop_append_eq_append_drop]
      simp [hlen]
  | ipv6 bs =>
    obtain ⟨hlen, -⟩ := hwf
    rw [hdata]
    simp only [TargetAddress.typeByte, TargetAddress.encodeWire, TargetAddress.wireLen,
      decodeUDPAddr, List.getD_cons_succ, List.getD_cons_zero,
      ipv4Address, domainName, ipv6Address, List.length_cons, List.length_append, hlen]
    norm_num
    refine ⟨by omega, List.take_left' hlen, ?_, ?_⟩
    · have h20 : (bs ++ port / 256 :: port % 256 :: payload)[16]? = some (port / 256) := by
        rw [List.getElem?_append_right (by omega : bs.length ≤ 16), hlen]
        norm_num
      have h21 : (bs ++ port / 256 :: port % 256 :: payload)[17]? = some (port % 256) := by
        rw [List.getElem?_append_right (by omega : bs.length ≤ 17), hlen]
        norm_num
      rw [h20, h21]
      simp only [Option.getD_some, beU16]
      omega
    · rw [List.drop_append_eq_append_drop]
      simp [hlen]
  | domain bs =>
    obtain ⟨hge, hle, -⟩ := hwf
    have hmod : bs.length % 256 = bs.length := Nat.mod_eq_of_lt (by omega)
    rw [hdata]
    simp only [TargetAddress.typeByte, TargetAddress.encodeWire, TargetAddress.wireLen,
      List.cons_append, hmod,
      decodeUDPAddr, List.getD_cons_succ, List.getD_cons_zero,
      ipv4Address, domainName, ipv6Address, List.length_cons, List.length_append]
    norm_num
    refine ⟨by omega, ?_, by omega, ?_⟩
    · have hp1 : (0 :: 0 :: 0 :: 3 :: bs.length ::
          (bs ++ port / 256 :: port % 256 :: payload))[5 + bs.length]? = some (port / 256) := by
        rw [Nat.add_comm]
        simp only [List.getElem?_cons_succ]
        rw [List.getElem?_append_right (le_refl _)]
        simp
      have hp2 : (0 :: 0 :: 0 :: 3 :: bs.length ::
          (bs ++ port / 256 :: port % 256 :: payload))[6 + bs.length]? = some (port % 256) := by
        rw [Nat.add_comm]
        simp only [List.getElem?_cons_succ]
        rw [List.getElem?_append_right (by omega : bs.length ≤ bs.length + 1)]
        simp
      rw [hp1, hp2]
      simp only [Option.getD_some, beU16]
      omega
    · rw [Nat.add_comm]
      simp only [List.drop_succ_cons]
      rw [List.drop_append_eq_append_drop]
      simp [List.drop_eq_nil_of_le (show bs.length ≤ bs.length + 2 by omega)]

/-- C7: for every `TargetAddress` of the three wire types — IPv4 (any
4-byte value), IPv6 (any 16-byte value), and domain names of length 1 to
255 including both boundaries — and every 16-bit port, decoding the wire
bytes produced by re-encoding that address and port (`buildUDPReply`'s
envelope, any payload) yields exactly the original address, port, and
payload. -/
theorem decode_encode_roundtrip (a : TargetAddress) (port : Nat) (payload : List Nat)
    (hwf : a.Wf) (hport : port < 65536) :
    decodeUDPAddr (buildUDPReply a port payload) =
      some ⟨a, port, 4 + a.wireLen + 2, payload⟩ :=
  decodeUDPAddr_encode a port payload hwf hport

/-- Witness for `decode_encode_roundtrip` at the 1-byte domain boundary. -/
theorem decode_encode_roundtrip_witness :
    decodeUDPAddr (buildUDPReply (.domain [97]) 80 [1, 2]) =
      some ⟨.domain [97], 80, 4 + (TargetAddress.domain [97]).wireLen + 2, [1, 2]⟩ :=
  decode_encode_roundtrip (.domain [97]) 80 [1, 2] (by decide) (by decide)

/-- C5 counterexample: the well-formed domain-type envelope of total length
8 — domain length 1, empty payload, exactly the bytes `buildUDPReply`
produces for the one-byte domain "a" and port 80 — is rejected by the flat
10-byte minimum check of `processUDPPacket` and dropped, not processed. -/
theorem short_domain_envelope_dropped :
    buildUDPReply (.domain [97]) 80 [] = [0, 0, 0, 3, 1, 97, 0, 80] ∧
    parseUDPPacket (buildUDPReply (.domain [97]) 80 []) = none :=
  ⟨rfl, rfl⟩

/-- C5 amended: the Datagram Relay's too-short rejection is a flat 10-byte
minimum applied before the per-type checks (10 for IPv4, 7+N for a domain
of length N, 22 for IPv6): every well-formed envelope of total length at
least the maximum of 10 and its type's minimum passes the size checks and
is processed, and every packet shorter than 10 bytes — including
well-formed domain envelopes of total length 8 or 9 — is dropped. -/
theorem envelope_size_gate (a : TargetAddress) (port : Nat) (payload : List Nat)
    (hwf : a.Wf) (hport : port < 65536)
    (h10 : 10 ≤ (buildUDPReply a port payload).length) :
    (parseUDPPacket (buildUDPReply a port payload)).isSome = true ∧
    ∀ data : List Nat, data.length < 10 → parseUDPPacket data = none := by
  constructor
  · have hd := decodeUDPAddr_encode a port payload hwf hport
    have hcons : buildUDPReply a port payload =
        0 :: 0 :: 0 :: a.typeByte :: (a.encodeWire ++ (putUint16 port ++ payload)) := by
      simp [buildUDPReply]
    simp only [parseUDPPacket]
    rw [if_neg (by omega)]
    rw [hcons]
    simp only [List.getD_cons_zero, List.getD_cons_succ, ne_eq, not_true_eq_false]
    norm_num
    rw [← hcons, hd]
    rfl
  · intro data hd
    simp [parseUDPPacket, hd]

/-- Witness for `envelope_size_gate` at a 2-byte domain with a payload
bringing the envelope to exactly 10 bytes. -/
theorem envelope_size_gate_witness :
    (parseUDPPacket (buildUDPReply (.domain [97, 98]) 80 [255])).isSome = true ∧
    ∀ data : List Nat, data.length < 10 → parseUDPPacket data = none :=
  envelope_size_gate (.domain [97, 98]) 80 [255] (by decide) (by decide) (by decide)

/-- C1: for every accepted inbound envelope (one the parser does not drop)
that is forwarded, if the destination sends a datagram within the 5-second
wait the relay sends exactly one reply datagram, addressed to the
originating client, whose envelope carries reserved bytes zero, fragment
byte zero, the original destination's address-type byte, address bytes and
big-endian port, and then the reply payload; on timeout or read error
(`destReply = none`) no datagram is sent back. -/
theorem udp_reply_sent_exactly_once (data : List Nat) (clientAddr : Nat)
    (r : UDPParsed) (hp : parseUDPPacket data = some r) (rp : List Nat) :
    processUDPPacket data clientAddr true (some rp) =
      [⟨clientAddr, 0 :: 0 :: 0 :: r.addr.typeByte ::
          (r.addr.encodeWire ++ putUint16 r.port ++ rp)⟩] ∧
    processUDPPacket data clientAddr true none = [] := by
  unfold processUDPPacket
  rw [hp]
  simp [buildUDPReply]

/-- Witness for `udp_reply_sent_exactly_once` on a concrete IPv4 envelope. -/
theorem udp_reply_sent_exactly_once_witness :
    processUDPPacket [0, 0, 0, 1, 8, 8, 8, 8, 0, 53] 7 true (some [1, 2, 3]) =
      [⟨7, 0 :: 0 :: 0 :: (TargetAddress.ipv4 [8, 8, 8, 8]).typeByte ::
          ((TargetAddress.ipv4 [8, 8, 8, 8]).encodeWire ++ putUint16 53 ++ [1, 2, 3])⟩] ∧
    processUDPPacket [0, 0, 0, 1, 8, 8, 8, 8, 0, 53] 7 true none = [] :=
  udp_reply_sent_exactly_once [0, 0, 0, 1, 8, 8, 8, 8, 0, 53] 7
    ⟨.ipv4 [8, 8, 8, 8], 53, 10, []⟩ rfl [1, 2, 3]

/-- C10: for every inbound byte string, `processUDPPacket`'s parser either
drops the packet or computes a header length under which every access is
in bounds: the packet is at least 10 bytes (covering the reserved,
fragment and address-type bytes), the header consists of exactly the
4 fixed bytes, the address bytes, and the 2 port bytes at headerLen-2, and
the whole header — hence also the port read and the payload slice at
headerLen — lies within the packet. -/
theorem parse_bounds_safe (data : List Nat) (r : UDPParsed)
    (hp : parseUDPPacket data = some r) :
    10 ≤ data.length ∧
    r.headerLen = 4 + r.addr.wireLen + 2 ∧
    r.headerLen ≤ data.length ∧
    r.payload = data.drop r.headerLen := by
  unfold parseUDPPacket at hp
  split_ifs at hp with h10
  simp only [decodeUDPAddr] at hp
  by_cases ha4 : data.getD 3 0 = ipv4Address
  · rw [if_pos ha4, if_neg (by omega)] at hp
    obtain rfl := Option.some.inj hp
    exact ⟨by omega, by norm_num [TargetAddress.wireLen], by dsimp only; omega, rfl⟩
  · rw [if_neg ha4] at hp
    by_cases ha3 : data.getD 3 0 = domainName
    · rw [if_pos ha3, if_neg (by omega)] at hp
      by_cases h7 : data.length < 7 + data.getD 4 0
      · rw [if_pos h7] at hp
        exact absurd hp (by simp)
      · rw [if_neg h7] at hp
        obtain rfl := Option.some.inj hp
        refine ⟨by omega, ?_, by dsimp only; omega, rfl⟩
        simp only [TargetAddress.wireLen, List.length_take, List.length_drop]
        omega
    · rw [if_neg ha3] at hp
      by_cases ha6 : data.getD 3 0 = ipv6Address
      · rw [if_pos ha6] at hp
        by_cases h22 : data.length < 22
        · rw [if_pos h22] at hp
          exact absurd hp (by simp)
        · rw [if_neg h22] at hp
          obtain rfl := Option.some.inj hp
          exact ⟨by omega, by norm_num [TargetAddress.wireLen], by dsimp only; omega, rfl⟩
      · rw [if_neg ha6] at hp
        exact absurd hp (by simp)

/-- Witness for `parse_bounds_safe` on a concrete domain envelope. -/
theorem parse_bounds_safe_witness :
    10 ≤ ([0, 0, 0, 3, 3, 97, 98, 99, 0, 80] : List Nat).length ∧
    (UDPParsed.mk (.domain [97, 98, 99]) 80 10 []).headerLen =
      4 + (UDPParsed.mk (.domain [97, 98, 99]) 80 10 []).addr.wireLen + 2 ∧
    (UDPParsed.mk (.domain [97, 98, 99]) 80 10 []).headerLen ≤
      ([0, 0, 0, 3, 3, 97, 98, 99, 0, 80] : List Nat).length ∧
    (UDPParsed.mk (.domain [97, 98, 99]) 80 10 []).payload =
      ([0, 0, 0, 3, 3, 97, 98, 99, 0, 80] : List Nat).drop
        (UDPParsed.mk (.domain [97, 98, 99]) 80 10 []).headerLen :=
  parse_bounds_safe [0, 0, 0, 3, 3, 97, 98, 99, 0, 80]
    ⟨.domain [97, 98, 99], 80, 10, []⟩ rfl

/-- Helper: the copy direction into `dummyConn` never delivers a byte to
the control connection, whatever the client sends — `dummyConn.Write`
discards everything. -/
theorem ioCopyRun_dummy_writes (l : List (List Nat)) :
    (ioCopyRun dummyWriteEnd l).1 = [] := by
  induction l with
  | nil => rfl
  | cons c cs ih =>
    simp only [ioCopyRun]
    split_ifs
    · exact ih
    · rfl
    · simp only [dummyWriteEnd] at ih ⊢
      simp [ih]

/-- Helper: the echo direction `io.Copy(conn, dummyConn)` writes every
chunk it reads — which are bytes the client itself sent on the control
connection — back onto the control connection, and nothing else. -/
theorem ioCopyRun_conn_writes (l : List (List Nat)) :
    (ioCopyRun connWriteEnd l).1 = l.flatten := by
  induction l with
  | nil => rfl
  | cons c cs ih =>
    simp only [ioCopyRun]
    split_ifs with h0 hs
    · have hc : c = [] := List.length_eq_zero.mp h0
      subst hc
      simpa using ih
    · simp [connWriteEnd] at hs
    · simp only [connWriteEnd] at ih ⊢
      simp [ih]

/-- Helper: each copy loop returns once its share of the client's finite
post-reply stream is exhausted (EOF at the client's close) or it hits a
short write, so `relay` always gets its `done` signal. -/
theorem ioCopyRun_returns (dst : WriteEnd) (l : List (List Nat)) :
    (ioCopyRun dst l).2 = true := by
  induction l with
  | nil => rfl
  | cons c cs ih =>
    simp only [ioCopyRun]
    split_ifs
    · exact ih
    · rfl
    · simpa using ih

/-- C2 counterexample: bytes can be written to the control connection
after the UDP ASSOCIATE reply — if the client transmits a byte 0x2A
post-reply and the echo copier `io.Copy(conn, dummyConn)` (whose `Read`
delegates to the control connection) wins the race for it, the relay
writes that byte back onto the control connection. -/
theorem association_echoes_client_bytes :
    (associationAfterReply [] [[0x2A]]).1 = [0x2A] ∧
    (associationAfterReply [] [[0x2A]]).1 ≠ [] :=
  ⟨rfl, by decide⟩

/-- C2 amended: after the UDP ASSOCIATE success reply has been written,
the server never originates bytes on the control connection: the copy
direction into `dummyConn` delivers nothing (its `Write` is a no-op), and
the only bytes the relay writes to the control connection are echoes of
the bytes the client itself sends on it post-reply, won by the
`io.Copy(conn, dummyConn)` direction.  In particular a client that sends
no payload after the reply never receives a byte, and the client closing
the connection ends the copy loops, whereupon `handleConnection`'s
deferred closes tear the association down (both connections closed). -/
theorem association_writes_are_echoes (toDummy toEcho : List (List Nat)) :
    (ioCopyRun dummyWriteEnd toDummy).1 = [] ∧
    (associationAfterReply toDummy toEcho).1 = toEcho.flatten ∧
    (associationAfterReply toDummy toEcho).2 = (true, true) := by
  refine ⟨ioCopyRun_dummy_writes toDummy, ?_, ?_⟩
  · simp [associationAfterReply, relayAfterReply,
      ioCopyRun_dummy_writes, ioCopyRun_conn_writes]
  · simp [associationAfterReply, relayAfterReply, ioCopyRun_returns]

/-- C9: once a CONNECT request has dialed its destination successfully,
every exit path of the session closes both the control connection and the
destination connection — whichever relay direction finishes first, and
also when writing the success reply to the client fails. -/
theorem connect_session_closes_both (replyWriteOk firstDirection : Bool) :
    CloseEvent.control ∈ handleConnectionCloseEvents replyWriteOk firstDirection ∧
    CloseEvent.target ∈ handleConnectionCloseEvents replyWriteOk firstDirection := by
  cases replyWriteOk <;> cases firstDirection <;> exact ⟨by decide, by decide⟩

end SimpleProxy
